import Mathlib

/-!
Verification of the WireGuard tunnel-management layer (wireguard.py).

The source is a single-threaded Qt application.  We shallowly embed the
tunnel-management core as pure functions over explicit oracles:

- a Native record models the foreign library (ctypes CDLL): each entry point
  returns an Option, where none models a NULL pointer result;
- an Env additionally carries the outcome of each subprocess.run invocation
  of the wg-quick activation tool, keyed by its argv;
- an FsEnv models the filesystem view the code queries (os.path.isfile,
  os.path.isdir, os.access);
- each controller operation is embedded as a function producing the ordered
  list of externally visible Events it performs: subprocess invocations,
  append_log calls, file writes, renames and removals.  Filesystem mutations
  are replayed with applyEvents.
-/

/-- A value stored in a Python dict produced by the native bridge:
the config dict mixes strings and the integer listen port. -/
inductive Value where
  | str : String → Value
  | int : Int → Value
deriving DecidableEq

/-- Outcome of one subprocess.run of the external activation command.
success models exit code 0; failure models a CalledProcessError
(non-zero exit), carrying the captured stdout and stderr (text=True). -/
inductive CmdOutcome where
  | success : String → String → CmdOutcome
  | failure : String → String → CmdOutcome
deriving DecidableEq

/-- The captured stdout of an outcome. -/
def CmdOutcome.out : CmdOutcome → String
  | .success o _ => o
  | .failure o _ => o

/-- The captured stderr of an outcome. -/
def CmdOutcome.err : CmdOutcome → String
  | .success _ e => e
  | .failure _ e => e

/-- Arguments of one call to MainWindow.append_log. -/
structure LogEntry where
  cmd : List String
  stdout : String
  stderr : String
deriving DecidableEq

/-- One externally visible action performed by a controller operation,
in program order. -/
inductive Event where
  | run : List String → CmdOutcome → Event
  | log : LogEntry → Event
  | write : String → String → Event
  | rename : String → String → Event
  | remove : String → Event
deriving DecidableEq

/-- Whether an event is an append_log call. -/
def Event.isLog : Event → Bool
  | .log _ => true
  | _ => false

/-- Mirror of the C struct ConfigResponse marshalled by ctypes: each
c_char_p field may be NULL (none); InterfaceListenPort is a c_int. -/
structure ConfigResponse where
  InterfacePrivKey : Option String
  InterfacePubKey : Option String
  InterfaceListenPort : Int
  InterfaceAddress : Option String
  InterfaceDNS : Option String
  PeerPubKey : Option String
  PeerEndpointAddress : Option String
  PeerAllowedIPs : Option String
  PeerPersistentKeepalive : Option String
deriving DecidableEq

/-- Mirror of the C struct StatsResponse. -/
structure StatsResponse where
  LastHandshakeTime : Option String
  Transfer : Option String
deriving DecidableEq

/-- The foreign library behind the Wireguard bridge: each entry point
returns none to model a NULL pointer result.  A non-null
readInterfacesName result carries the Count names in order. -/
structure Native where
  readInterfacesName : Option (List String)
  readConfig : String → Option ConfigResponse
  readStats : String → Option StatsResponse

/-- The filesystem view queried by the code: files maps a path to the
content of an existing regular file; isDir is os.path.isdir; dirWritable
and fileWritable are os.access(-, W_OK) on a directory and on a file. -/
structure FsEnv where
  files : List (String × String)
  isDir : String → Bool
  dirWritable : String → Bool
  fileWritable : String → Bool

/-- The ambient environment of a controller operation: the native bridge
plus the outcome of each wg-quick invocation, keyed by argv. -/
structure Env where
  native : Native
  run : List String → CmdOutcome

/-- Config.get_folders: the fixed ordered candidate config directories. -/
def configFolders : List String := ["/etc/wireguard", "/usr/local/etc/wireguard"]

/-- Config.get_paths: candidate paths of a tunnel config file, in order. -/
def configPaths (tunnel_name : String) : List String :=
  configFolders.map (fun folder => folder ++ "/" ++ tunnel_name ++ ".conf")

/-- Wireguard._str_decode: decode a possibly NULL C string, NULL
becoming the empty string. -/
def str_decode : Option String → String
  | some s => s
  | none => ""

/-- Wireguard.read_interfaces_name: a NULL pointer yields the empty
list, otherwise the Count names are decoded in order. -/
def Wireguard.read_interfaces_name (wg : Native) : List String :=
  match wg.readInterfacesName with
  | none => []
  | some names => names

/-- Wireguard.read_config: a NULL pointer yields the empty dict,
otherwise a dict with exactly the nine keys of the source, every NULL
string field decoded to the empty string. -/
def Wireguard.read_config (wg : Native) (interface : String) : List (String × Value) :=
  match wg.readConfig interface with
  | none => []
  | some cfg =>
    [("interface_priv_key", Value.str (str_decode cfg.InterfacePrivKey)),
     ("interface_pub_key", Value.str (str_decode cfg.InterfacePubKey)),
     ("interface_listen_port", Value.int cfg.InterfaceListenPort),
     ("interface_address", Value.str (str_decode cfg.InterfaceAddress)),
     ("interface_dns", Value.str (str_decode cfg.InterfaceDNS)),
     ("peer_pub_key", Value.str (str_decode cfg.PeerPubKey)),
     ("peer_endpoint_address", Value.str (str_decode cfg.PeerEndpointAddress)),
     ("peer_allowed_ips", Value.str (str_decode cfg.PeerAllowedIPs)),
     ("peer_keep_alive", Value.str (str_decode cfg.PeerPersistentKeepalive))]

/-- Wireguard.read_stats: a NULL pointer yields the empty dict,
otherwise a dict with exactly the two keys of the source. -/
def Wireguard.read_stats (wg : Native) (interface : String) : List (String × Value) :=
  match wg.readStats interface with
  | none => []
  | some cfg =>
    [("last_handshake", Value.str (str_decode cfg.LastHandshakeTime)),
     ("transfer", Value.str (str_decode cfg.Transfer))]

/-- config.get("interface_listen_port", 0): dict lookup with default 0.
In every dict produced by Wireguard.read_config this key is absent or
holds an int, so the non-int fallback is unreachable. -/
def getListenPort (config : List (String × Value)) : Int :=
  match config.lookup "interface_listen_port" with
  | some (Value.int n) => n
  | _ => 0

/-- The character class [a-zA-Z0-9] of the tunnel-name regex. -/
def isAlnumChar (c : Char) : Bool :=
  (('a' ≤ c && c ≤ 'z') || ('A' ≤ c && c ≤ 'Z') || ('0' ≤ c && c ≤ '9'))

/-- The character class [a-zA-Z0-9_=+.-] of the tunnel-name regex. -/
def isNameMidChar (c : Char) : Bool :=
  isAlnumChar c || c = '_' || c = '=' || c = '+' || c = '.' || c = '-'

/-- Full match of the source regex on a list of characters: the first
character is in [a-zA-Z0-9]; the optional tail, when nonempty, is one to
fifteen characters of [a-zA-Z0-9_=+.-] followed by one [a-zA-Z0-9]. -/
def validNameList (l : List Char) : Bool :=
  match l with
  | [] => false
  | c :: rest =>
    isAlnumChar c &&
      (rest.isEmpty ||
        (decide (2 ≤ rest.length) && decide (rest.length ≤ 16) &&
          rest.dropLast.all isNameMidChar &&
          (match rest.getLast? with
           | some d => isAlnumChar d
           | none => false)))

/-- The tunnel-name check of both validate_config methods. -/
def valid_name (s : String) : Bool := validNameList s.data

/-- The validation errors of the two dialog validate_config methods,
one per warning message of the source. -/
inductive CreateError where
  | emptyName
  | invalidName
  | noConfigDir
  | notWritable
  | alreadyExists
deriving DecidableEq

/-- Whether a path is an existing regular file (os.path.isfile). -/
def isfile (files : List (String × String)) (p : String) : Bool :=
  (files.lookup p).isSome

/-- TunnelCreationDialog.validate_config: the checks in source order
(empty name, name regex, directory resolution by the first existing
candidate folder, directory writability, existing config file), first
failure winning; on success the resolved config_dir is returned. -/
def TunnelCreationDialog.validate_config (fsenv : FsEnv) (name : String) :
    Except CreateError String :=
  if name = "" then Except.error CreateError.emptyName
  else if valid_name name = false then Except.error CreateError.invalidName
  else
    match configFolders.find? fsenv.isDir with
    | none => Except.error CreateError.noConfigDir
    | some dir =>
      if fsenv.dirWritable dir = false then Except.error CreateError.notWritable
      else if isfile fsenv.files (dir ++ "/" ++ name ++ ".conf") then
        Except.error CreateError.alreadyExists
      else Except.ok dir

/-- TunnelCreationDialog.save_config: validate (the name is the
stripped text of the input field), then write the new config file under
the resolved directory.  On a validation failure nothing is written. -/
def TunnelCreationDialog.save_config (fsenv : FsEnv) (name content : String) :
    List Event × Option CreateError :=
  match TunnelCreationDialog.validate_config fsenv name with
  | Except.error e => ([], some e)
  | Except.ok dir => ([Event.write (dir ++ "/" ++ name ++ ".conf") content], none)

/-- TunnelEditDialog.validate_config: same checks as the creation
dialog, except that the collision check is skipped when the name is
unchanged. -/
def TunnelEditDialog.validate_config (fsenv : FsEnv) (tunnel_name name : String) :
    Except CreateError String :=
  if name = "" then Except.error CreateError.emptyName
  else if valid_name name = false then Except.error CreateError.invalidName
  else
    match configFolders.find? fsenv.isDir with
    | none => Except.error CreateError.noConfigDir
    | some dir =>
      if fsenv.dirWritable dir = false then Except.error CreateError.notWritable
      else if name ≠ tunnel_name && isfile fsenv.files (dir ++ "/" ++ name ++ ".conf") then
        Except.error CreateError.alreadyExists
      else Except.ok dir

/-- Run one wg-quick invocation and append its command line and captured
stdout and stderr to the activity log; the source does this in both the
success branch and the CalledProcessError handler of every logged call. -/
def runAndLog (env : Env) (cmd : List String) : List Event :=
  [Event.run cmd (env.run cmd),
   Event.log ⟨cmd, (env.run cmd).out, (env.run cmd).err⟩]

/-- Errors of TunnelEditDialog.save_config: a validation failure, or a
failure of the wg-quick down step that precedes a rename. -/
inductive EditError where
  | validation : CreateError → EditError
  | stopFailed
deriving DecidableEq

/-- TunnelEditDialog.save_config: validate the new name; when the name
changed and the tunnel is reported active (listen port nonzero, read
fresh from the bridge), bring it down first, aborting on failure; then
rename the config file and write the editor content to it.  With an
unchanged name only the in-place write happens. -/
def TunnelEditDialog.save_config (env : Env) (fsenv : FsEnv)
    (tunnel_name config_file new_name content : String) :
    List Event × Option EditError :=
  match TunnelEditDialog.validate_config fsenv tunnel_name new_name with
  | Except.error e => ([], some (EditError.validation e))
  | Except.ok dir =>
    if new_name ≠ tunnel_name then
      let down := ["wg-quick", "down", tunnel_name]
      let renameWrite :=
        let new_config_path := dir ++ "/" ++ new_name ++ ".conf"
        [Event.rename config_file new_config_path,
         Event.write new_config_path content]
      if getListenPort (Wireguard.read_config env.native tunnel_name) ≠ 0 then
        match env.run down with
        | CmdOutcome.failure o e =>
          ([Event.run down (CmdOutcome.failure o e), Event.log ⟨down, o, e⟩],
           some EditError.stopFailed)
        | CmdOutcome.success o e =>
          ([Event.run down (CmdOutcome.success o e), Event.log ⟨down, o, e⟩] ++
            renameWrite, none)
      else (renameWrite, none)
    else ([Event.write config_file content], none)

/-- MainWindow.toggle_tunnel: on a toggle-on request, scan the fresh
interface list for an active tunnel; a different active tunnel is
brought down first, aborting on failure; then the selected tunnel is
brought up (or down, for a toggle-off), the invocation being logged in
both branches. -/
def MainWindow.toggle_tunnel (env : Env) (selected_tunnel : Option String)
    (is_active : Bool) : List Event :=
  match selected_tunnel with
  | none => []
  | some sel =>
    let new_state := !is_active
    let phase2 :=
      runAndLog env (if new_state then ["wg-quick", "up", sel] else ["wg-quick", "down", sel])
    if new_state then
      match (Wireguard.read_interfaces_name env.native).find?
          (fun i => getListenPort (Wireguard.read_config env.native i) != 0) with
      | some active_tunnel =>
        if active_tunnel ≠ "" && active_tunnel ≠ sel then
          match env.run ["wg-quick", "down", active_tunnel] with
          | CmdOutcome.failure _ _ => runAndLog env ["wg-quick", "down", active_tunnel]
          | CmdOutcome.success _ _ =>
            runAndLog env ["wg-quick", "down", active_tunnel] ++ phase2
        else phase2
      | none => phase2
    else phase2

/-- MainWindow.quit_application: bring every reported-active interface
down; the invocation is neither captured nor appended to the activity
log, and a failure only pops a warning before the loop continues. -/
def MainWindow.quit_application (env : Env) : List Event :=
  (Wireguard.read_interfaces_name env.native).filterMap
    (fun interface =>
      if getListenPort (Wireguard.read_config env.native interface) ≠ 0 then
        some (Event.run ["wg-quick", "down", interface] (env.run ["wg-quick", "down", interface]))
      else none)

/-- MainWindow.remove_tunnel, single-selection branch: on the first
candidate path that is a regular file, bring the tunnel down first if it
is reported active (aborting the deletion on failure), then abort if the
file is not writable, and otherwise remove it. -/
def MainWindow.remove_tunnel (env : Env) (fsenv : FsEnv) (selected_tunnel : String) :
    List Event :=
  match (configPaths selected_tunnel).find? (fun p => isfile fsenv.files p) with
  | none => []
  | some path =>
    let down := ["wg-quick", "down", selected_tunnel]
    if getListenPort (Wireguard.read_config env.native selected_tunnel) ≠ 0 then
      match env.run down with
      | CmdOutcome.failure o e =>
        [Event.run down (CmdOutcome.failure o e), Event.log ⟨down, o, e⟩]
      | CmdOutcome.success o e =>
        if fsenv.fileWritable path = false then
          [Event.run down (CmdOutcome.success o e), Event.log ⟨down, o, e⟩]
        else
          [Event.run down (CmdOutcome.success o e), Event.log ⟨down, o, e⟩,
           Event.remove path]
    else
      if fsenv.fileWritable path = false then []
      else [Event.remove path]

/-- The text appended by one MainWindow.append_log call: the bracketed
timestamp, the space-joined argv, and the captured stdout and stderr. -/
def logEntryText (now : String) (cmd : List String) (stdout stderr : String) : String :=
  "[" ++ now ++ "] " ++ String.intercalate " " cmd ++ ":\n" ++ stdout ++ stderr ++ "\n"

/-- MainWindow.append_log: append the formatted entry; if the log now
exceeds 6,000,000 characters keep only its last 6000000 / 2 characters
(the Python slice logs[-6000000 // 2:]). -/
def MainWindow.append_log (now logs : String) (cmd : List String) (stdout stderr : String) :
    String :=
  let l := logs ++ logEntryText now cmd stdout stderr
  if l.length > 6000000 then String.mk (l.data.drop (l.data.length - 6000000 / 2)) else l

/-- Replay one filesystem event; run and log events do not touch it. -/
def applyEvent (files : List (String × String)) : Event → List (String × String)
  | Event.run _ _ => files
  | Event.log _ => files
  | Event.write p c => (p, c) :: files.filter (fun kv => kv.1 != p)
  | Event.remove p => files.filter (fun kv => kv.1 != p)
  | Event.rename p q =>
    match files.lookup p with
    | none => files
    | some c => (q, c) :: (files.filter (fun kv => kv.1 != p)).filter (fun kv => kv.1 != q)

/-- Replay a trace of events on a filesystem, in order. -/
def applyEvents (files : List (String × String)) (trace : List Event) :
    List (String × String) :=
  trace.foldl applyEvent files

/-- Every subprocess invocation in a trace is immediately followed by an
append_log call carrying the same argv and the captured output. -/
def wellLogged : List Event → Bool
  | [] => true
  | Event.run c o :: Event.log en :: rest =>
    (decide (en.cmd = c) && decide (en.stdout = o.out) && decide (en.stderr = o.err)) &&
      wellLogged rest
  | Event.run _ _ :: _ => false
  | _ :: rest => wellLogged rest

theorem string_length_mk (l : List Char) : (String.mk l).length = l.length := rfl

theorem string_data_mk (l : List Char) : (String.mk l).data = l := rfl

theorem string_length_append (a b : String) : (a ++ b).length = a.length + b.length := by
  cases a
  cases b
  exact List.length_append ..

theorem lookup_cons_eq (k v : String) (l : List (String × String)) (q : String) :
    List.lookup q ((k, v) :: l) = if q = k then some v else List.lookup q l := by
  by_cases h : q = k
  · simp [List.lookup, h]
  · have hf : (q == k) = false := by simp [h]
    simp [List.lookup, hf, h]

theorem lookup_filterOut (files : List (String × String)) (p q : String) (h : q ≠ p) :
    (files.filter (fun kv => kv.1 != p)).lookup q = files.lookup q := by
  induction files with
  | nil => rfl
  | cons kv rest ih =>
    rcases kv with ⟨a, b⟩
    by_cases hk : a = p
    · have hb : ((a, b).1 != p) = false := by simp [hk]
      have hqa : ¬ q = a := fun hqa => h (hqa.trans hk)
      simp [List.filter_cons, hb, lookup_cons_eq, hqa, ih]
    · have hb : ((a, b).1 != p) = true := by simp [hk]
      by_cases hq : q = a
      · simp [List.filter_cons, hb, lookup_cons_eq, hq]
      · simp [List.filter_cons, hb, lookup_cons_eq, hq, ih]

theorem wellLogged_runAndLog (env : Env) (cmd : List String) (rest : List Event) :
    wellLogged (runAndLog env cmd ++ rest) = wellLogged rest := by
  simp [runAndLog, wellLogged]

/-- C7: a NULL foreign result makes read_config and read_stats return
the empty dict and read_interfaces_name the empty list, never an error;
and emptiness of the returned dict exactly characterises the NULL
result, so absence is distinguishable only by a zero length. -/
theorem native_null_yields_empty (n : Native) (interface : String) :
    (n.readConfig interface = none → Wireguard.read_config n interface = []) ∧
    (n.readStats interface = none → Wireguard.read_stats n interface = []) ∧
    (n.readInterfacesName = none → Wireguard.read_interfaces_name n = []) ∧
    ((Wireguard.read_config n interface).length = 0 ↔ n.readConfig interface = none) ∧
    ((Wireguard.read_stats n interface).length = 0 ↔ n.readStats interface = none) := by
  refine ⟨fun h => ?_, fun h => ?_, fun h => ?_, ?_, ?_⟩
  · simp [Wireguard.read_config, h]
  · simp [Wireguard.read_stats, h]
  · simp [Wireguard.read_interfaces_name, h]
  · cases hc : n.readConfig interface <;> simp [Wireguard.read_config, hc]
  · cases hc : n.readStats interface <;> simp [Wireguard.read_stats, hc]

/-- A native library whose every entry point returns NULL. -/
def nullNative : Native := ⟨none, fun _ => none, fun _ => none⟩

theorem native_null_yields_empty_witness :
    Wireguard.read_config nullNative "ghost" = [] ∧
    Wireguard.read_stats nullNative "ghost" = [] ∧
    Wireguard.read_interfaces_name nullNative = [] := by
  obtain ⟨h1, h2, h3, _, _⟩ := native_null_yields_empty nullNative "ghost"
  exact ⟨h1 rfl, h2 rfl, h3 rfl⟩

/-- The keys of the dict built by Wireguard.read_config, in source order. -/
def nineConfigKeys : List String :=
  ["interface_priv_key", "interface_pub_key", "interface_listen_port",
   "interface_address", "interface_dns", "peer_pub_key",
   "peer_endpoint_address", "peer_allowed_ips", "peer_keep_alive"]

/-- A ConfigResponse whose every C string field is NULL. -/
def nullFieldsResponse (port : Int) : ConfigResponse :=
  ⟨none, none, port, none, none, none, none, none, none⟩

/-- A native library returning a ConfigResponse with all string fields
NULL for every interface. -/
def nullFieldsNative (port : Int) : Native :=
  ⟨none, fun _ => some (nullFieldsResponse port), fun _ => none⟩

/-- C9: read_config returns either the empty dict or a dict with exactly
the nine keys, and a record whose every C string field is NULL still
yields all nine keys, the NULL fields decoded to empty strings. -/
theorem read_config_all_or_nothing (n : Native) (interface : String) :
    (Wireguard.read_config n interface = [] ∨
      ((Wireguard.read_config n interface).map Prod.fst = nineConfigKeys ∧
        (Wireguard.read_config n interface).length = 9)) ∧
    (∀ port : Int, ∀ i : String,
      Wireguard.read_config (nullFieldsNative port) i =
        [("interface_priv_key", Value.str ""),
         ("interface_pub_key", Value.str ""),
         ("interface_listen_port", Value.int port),
         ("interface_address", Value.str ""),
         ("interface_dns", Value.str ""),
         ("peer_pub_key", Value.str ""),
         ("peer_endpoint_address", Value.str ""),
         ("peer_allowed_ips", Value.str ""),
         ("peer_keep_alive", Value.str "")]) := by
  constructor
  · cases hc : n.readConfig interface
    · exact Or.inl (by simp [Wireguard.read_config, hc])
    · exact Or.inr (by simp [Wireguard.read_config, hc, nineConfigKeys])
  · intro port i
    rfl

/-- C6: append_log appends exactly the formatted entry while the log
stays within 6,000,000 characters; once it exceeds that ceiling, only
the most recent 3,000,000 characters (a suffix of the accumulated log)
are retained, never more. -/
theorem append_log_bound (now logs : String) (cmd : List String) (stdout stderr : String) :
    ((logs ++ logEntryText now cmd stdout stderr).length ≤ 6000000 →
      MainWindow.append_log now logs cmd stdout stderr =
        logs ++ logEntryText now cmd stdout stderr) ∧
    ((logs ++ logEntryText now cmd stdout stderr).length > 6000000 →
      (MainWindow.append_log now logs cmd stdout stderr).length = 3000000 ∧
      List.IsSuffix (MainWindow.append_log now logs cmd stdout stderr).data
        (logs ++ logEntryText now cmd stdout stderr).data) := by
  constructor
  · intro h
    simp only [MainWindow.append_log]
    rw [if_neg (by omega)]
  · intro h
    simp only [MainWindow.append_log]
    rw [if_pos h]
    constructor
    · have hlen : (logs ++ logEntryText now cmd stdout stderr).data.length > 6000000 := h
      rw [string_length_mk, List.length_drop]
      omega
    · rw [string_data_mk]
      exact List.drop_suffix _ _

/-- A log of 6,000,001 characters, exceeding the trim ceiling. -/
def bigLog : String := String.mk (List.replicate 6000001 'x')

theorem bigLog_length : bigLog.length = 6000001 := by
  rw [bigLog, string_length_mk, List.length_replicate]

theorem append_log_bound_witness :
    MainWindow.append_log "ts" "" ["wg-quick", "up", "wg0"] "" "" =
      "" ++ logEntryText "ts" ["wg-quick", "up", "wg0"] "" "" ∧
    (MainWindow.append_log "ts" bigLog ["wg-quick", "up", "wg0"] "" "").length = 3000000 := by
  constructor
  · exact (append_log_bound "ts" "" ["wg-quick", "up", "wg0"] "" "").1 (by decide)
  · refine ((append_log_bound "ts" bigLog ["wg-quick", "up", "wg0"] "" "").2 ?_).1
    rw [string_length_append, bigLog_length]
    omega

/-- The claim's reading of the naming rule (for C5): starts and ends
alphanumeric, total length 1 to 17, interior characters drawn from
alphanumerics plus the five extras.  Written from the spec wording, to
be compared with the regex actually used by the source. -/
def specNameOkList (l : List Char) : Bool :=
  match l with
  | [] => false
  | c :: rest =>
    isAlnumChar c && decide (rest.length + 1 ≤ 17) &&
      (match rest.getLast? with
       | none => true
       | some d => isAlnumChar d) &&
      rest.dropLast.all isNameMidChar

/-- String form of the claim's naming rule. -/
def specNameOk (s : String) : Bool := specNameOkList s.data

theorem cons_getLast?_some (a : Char) (l : List Char) : ∃ x, (a :: l).getLast? = some x := by
  induction l generalizing a with
  | nil => exact ⟨a, rfl⟩
  | cons b t ih => exact (ih b).imp (fun x hx => by rw [List.getLast?_cons_cons]; exact hx)

theorem validNameList_iff (l : List Char) :
    validNameList l = true ↔ (specNameOkList l = true ∧ l.length ≠ 2) := by
  cases l with
  | nil => simp [validNameList, specNameOkList]
  | cons c rest =>
    cases rest with
    | nil => simp [validNameList, specNameOkList]
    | cons d rest2 =>
      cases rest2 with
      | nil => simp [validNameList, specNameOkList]
      | cons e rest3 =>
        obtain ⟨x, hL⟩ := cons_getLast?_some d (e :: rest3)
        simp only [validNameList, specNameOkList, hL, List.isEmpty_cons, Bool.false_or,
          List.length_cons, Bool.and_eq_true, decide_eq_true_eq, ne_eq]
        constructor
        · rintro ⟨ha, ⟨⟨h2, h16⟩, hall⟩, hx⟩
          refine ⟨⟨⟨⟨ha, by omega⟩, hx⟩, hall⟩, by omega⟩
        · rintro ⟨⟨⟨⟨ha, h17⟩, hx⟩, hall⟩, hne⟩
          refine ⟨ha, ⟨⟨by omega, by omega⟩, hall⟩, hx⟩

/-- C5 counterexample: the two-character name ab starts and ends with an
alphanumeric and has length between 1 and 17, yet the source regex
rejects it (its optional tail group needs at least two characters). -/
theorem name_length_two_rejected :
    specNameOk "ab" = true ∧ valid_name "ab" = false := by
  decide

/-- C5 amended: the source name check accepts exactly the names of the
claimed shape whose length is not 2 — a single alphanumeric, or 3 to 17
characters starting and ending alphanumeric with interior characters
from the extended class; every length-2 name is rejected. -/
theorem valid_name_characterization (s : String) :
    valid_name s = true ↔ (specNameOk s = true ∧ s.length ≠ 2) :=
  validNameList_iff s.data

/-- C4: the creation checks are applied in exactly the source order —
empty name, name pattern, config-directory resolution, directory
writability, existence of the target file — the first failing check
determining the reported error, and any failing check leaves the
filesystem unchanged (no write event). -/
theorem create_validation_order (fsenv : FsEnv) (name content : String) :
    (TunnelCreationDialog.validate_config fsenv name = Except.error CreateError.emptyName ↔
      name = "") ∧
    (TunnelCreationDialog.validate_config fsenv name = Except.error CreateError.invalidName ↔
      (name ≠ "" ∧ valid_name name = false)) ∧
    (TunnelCreationDialog.validate_config fsenv name = Except.error CreateError.noConfigDir ↔
      (name ≠ "" ∧ valid_name name = true ∧ configFolders.find? fsenv.isDir = none)) ∧
    (∀ dir, configFolders.find? fsenv.isDir = some dir →
      ((TunnelCreationDialog.validate_config fsenv name = Except.error CreateError.notWritable ↔
        (name ≠ "" ∧ valid_name name = true ∧ fsenv.dirWritable dir = false)) ∧
       (TunnelCreationDialog.validate_config fsenv name = Except.error CreateError.alreadyExists ↔
        (name ≠ "" ∧ valid_name name = true ∧ fsenv.dirWritable dir = true ∧
          isfile fsenv.files (dir ++ "/" ++ name ++ ".conf") = true)))) ∧
    (∀ e, TunnelCreationDialog.validate_config fsenv name = Except.error e →
      TunnelCreationDialog.save_config fsenv name content = ([], some e)) := by
  by_cases h1 : name = ""
  · simp [TunnelCreationDialog.validate_config, TunnelCreationDialog.save_config, h1]
  · by_cases h2 : valid_name name = false
    · simp [TunnelCreationDialog.validate_config, TunnelCreationDialog.save_config, h1, h2]
    · have h2t : valid_name name = true := by
        cases h : valid_name name
        · exact absurd h h2
        · rfl
      rcases hf : configFolders.find? fsenv.isDir with _ | dir
      · simp [TunnelCreationDialog.validate_config, TunnelCreationDialog.save_config,
          h1, h2, h2t, hf]
      · by_cases hw : fsenv.dirWritable dir = false
        · simp [TunnelCreationDialog.validate_config, TunnelCreationDialog.save_config,
            h1, h2, h2t, hf, hw]
        · have hwt : fsenv.dirWritable dir = true := by
            cases h : fsenv.dirWritable dir
            · exact absurd h hw
            · rfl
          by_cases hex : isfile fsenv.files (dir ++ "/" ++ name ++ ".conf") = true
          · simp [TunnelCreationDialog.validate_config, TunnelCreationDialog.save_config,
              h1, h2, h2t, hf, hw, hwt, hex]
          · simp [TunnelCreationDialog.validate_config, TunnelCreationDialog.save_config,
              h1, h2, h2t, hf, hw, hwt, hex]

/-- A filesystem view with no config directories at all. -/
def c4FsBare : FsEnv := ⟨[], fun _ => false, fun _ => false, fun _ => false⟩

/-- A filesystem view where /etc/wireguard exists and is writable and
already holds wg0.conf. -/
def c4FsBusy : FsEnv :=
  ⟨[("/etc/wireguard/wg0.conf", "old")],
   fun d => d = "/etc/wireguard", fun _ => true, fun _ => true⟩

theorem create_validation_order_witness :
    TunnelCreationDialog.save_config c4FsBare "" "x" = ([], some CreateError.emptyName) ∧
    TunnelCreationDialog.validate_config c4FsBusy "wg0" =
      Except.error CreateError.alreadyExists := by
  constructor
  · exact (create_validation_order c4FsBare "" "x").2.2.2.2 CreateError.emptyName rfl
  · exact (((create_validation_order c4FsBusy "wg0" "x").2.2.2.1 "/etc/wireguard"
      rfl).2).mpr ⟨by decide, by decide, by decide, by decide⟩

/-- C10: saving from the edit dialog with the name unchanged performs
exactly one in-place write of the editor content to the existing config
file — no collision check blocks it, no wg-quick invocation, no log
entry, no rename — and no other file is touched. -/
theorem edit_same_name_in_place (env : Env) (fsenv : FsEnv)
    (name config_file content dir : String)
    (hname : name ≠ "")
    (hvalid : valid_name name = true)
    (hdir : configFolders.find? fsenv.isDir = some dir)
    (hw : fsenv.dirWritable dir = true) :
    TunnelEditDialog.save_config env fsenv name config_file name content =
      ([Event.write config_file content], none) ∧
    (applyEvents fsenv.files [Event.write config_file content]).lookup config_file =
      some content ∧
    (∀ q, q ≠ config_file →
      (applyEvents fsenv.files [Event.write config_file content]).lookup q =
        fsenv.files.lookup q) := by
  refine ⟨?_, ?_, ?_⟩
  · have hv : TunnelEditDialog.validate_config fsenv name name = Except.ok dir := by
      simp [TunnelEditDialog.validate_config, hname, hvalid, hdir, hw]
    simp [TunnelEditDialog.save_config, hv]
  · simp [applyEvents, applyEvent, lookup_cons_eq]
  · intro q hq
    simp [applyEvents, applyEvent, lookup_cons_eq, hq, lookup_filterOut fsenv.files config_file q hq]

/-- A filesystem view holding an existing wg0.conf in a writable
/etc/wireguard. -/
def editFs : FsEnv :=
  ⟨[("/etc/wireguard/wg0.conf", "old")],
   fun d => d = "/etc/wireguard", fun _ => true, fun _ => true⟩

/-- An environment whose native bridge answers NULL everywhere and
whose commands all succeed silently. -/
def quietEnv : Env := ⟨⟨none, fun _ => none, fun _ => none⟩, fun _ => CmdOutcome.success "" ""⟩

theorem edit_same_name_in_place_witness :
    TunnelEditDialog.save_config quietEnv editFs "wg0" "/etc/wireguard/wg0.conf" "wg0" "new" =
      ([Event.write "/etc/wireguard/wg0.conf" "new"], none) :=
  (edit_same_name_in_place quietEnv editFs "wg0" "/etc/wireguard/wg0.conf" "new"
    "/etc/wireguard" (by decide) (by decide) rfl rfl).1

/-- C3: renaming a tunnel whose fresh config reports a nonzero listen
port issues wg-quick down for the old name as the very first action,
before any rename; and when that down fails, the whole save aborts with
no rename event and the filesystem (hence the original file, under its
original path) unchanged. -/
theorem rename_active_deactivates_first (env : Env) (fsenv : FsEnv)
    (tunnel_name config_file new_name content dir : String)
    (hval : TunnelEditDialog.validate_config fsenv tunnel_name new_name = Except.ok dir)
    (hne : new_name ≠ tunnel_name)
    (hact : getListenPort (Wireguard.read_config env.native tunnel_name) ≠ 0) :
    ((TunnelEditDialog.save_config env fsenv tunnel_name config_file new_name content).1.head? =
      some (Event.run ["wg-quick", "down", tunnel_name]
        (env.run ["wg-quick", "down", tunnel_name]))) ∧
    (∀ o e, env.run ["wg-quick", "down", tunnel_name] = CmdOutcome.failure o e →
      TunnelEditDialog.save_config env fsenv tunnel_name config_file new_name content =
        ([Event.run ["wg-quick", "down", tunnel_name] (CmdOutcome.failure o e),
          Event.log ⟨["wg-quick", "down", tunnel_name], o, e⟩], some EditError.stopFailed) ∧
      (∀ p q, Event.rename p q ∉
        (TunnelEditDialog.save_config env fsenv tunnel_name config_file new_name content).1) ∧
      applyEvents fsenv.files
        (TunnelEditDialog.save_config env fsenv tunnel_name config_file new_name content).1 =
        fsenv.files) := by
  rcases hr : env.run ["wg-quick", "down", tunnel_name] with ⟨o0, e0⟩ | ⟨o0, e0⟩
  · constructor
    · simp [TunnelEditDialog.save_config, hval, if_pos hne, if_pos hact, hr]
    · intro o e hfail
      exact absurd hfail (by simp)
  · constructor
    · simp [TunnelEditDialog.save_config, hval, if_pos hne, if_pos hact, hr]
    · intro o e hfail
      obtain ⟨ho, he⟩ : o0 = o ∧ e0 = e := by
        injection hfail with h1 h2
        exact ⟨h1, h2⟩
      subst ho
      subst he
      refine ⟨?_, ?_, ?_⟩
      · simp [TunnelEditDialog.save_config, hval, if_pos hne, if_pos hact, hr]
      · intro p q
        simp [TunnelEditDialog.save_config, hval, if_pos hne, if_pos hact, hr]
      · simp [TunnelEditDialog.save_config, hval, if_pos hne, if_pos hact, hr,
          applyEvents, applyEvent]

/-- A native bridge reporting a single interface wg0, active on port
51820. -/
def activeWg0Native : Native :=
  ⟨some ["wg0"],
   fun i => if i = "wg0" then some ⟨none, none, 51820, none, none, none, none, none, none⟩
     else none,
   fun _ => none⟩

/-- An environment where wg0 is active and bringing wg0 down fails. -/
def failDownEnv : Env :=
  ⟨activeWg0Native,
   fun c => if c = ["wg-quick", "down", "wg0"] then CmdOutcome.failure "" "boom"
     else CmdOutcome.success "" ""⟩

theorem rename_active_deactivates_first_witness :
    TunnelEditDialog.save_config failDownEnv editFs "wg0" "/etc/wireguard/wg0.conf" "wg1" "c" =
      ([Event.run ["wg-quick", "down", "wg0"] (CmdOutcome.failure "" "boom"),
        Event.log ⟨["wg-quick", "down", "wg0"], "", "boom"⟩], some EditError.stopFailed) :=
  ((rename_active_deactivates_first failDownEnv editFs "wg0" "/etc/wireguard/wg0.conf"
    "wg1" "c" "/etc/wireguard" rfl (by decide) (by decide)).2 "" "boom" rfl).1

/-- C1: a toggle-on of the selected tunnel while a different tunnel is
reported active (fresh scan of the bridge finding a nonzero listen
port) issues wg-quick down for that tunnel as its first action; when
the forced down fails the whole activation aborts — the trace is just
the failed down and its log entry, and no wg-quick up is ever issued —
and when it succeeds the up follows the down. -/
theorem toggle_single_active_enforced (env : Env) (sel active_tunnel : String)
    (hfind : (Wireguard.read_interfaces_name env.native).find?
      (fun i => getListenPort (Wireguard.read_config env.native i) != 0) = some active_tunnel)
    (hne0 : active_tunnel ≠ "")
    (hne : active_tunnel ≠ sel) :
    ((MainWindow.toggle_tunnel env (some sel) false).head? =
      some (Event.run ["wg-quick", "down", active_tunnel]
        (env.run ["wg-quick", "down", active_tunnel]))) ∧
    (∀ o e, env.run ["wg-quick", "down", active_tunnel] = CmdOutcome.failure o e →
      MainWindow.toggle_tunnel env (some sel) false =
        [Event.run ["wg-quick", "down", active_tunnel] (CmdOutcome.failure o e),
         Event.log ⟨["wg-quick", "down", active_tunnel], o, e⟩] ∧
      ∀ oc, Event.run ["wg-quick", "up", sel] oc ∉ MainWindow.toggle_tunnel env (some sel) false) ∧
    (∀ o e, env.run ["wg-quick", "down", active_tunnel] = CmdOutcome.success o e →
      MainWindow.toggle_tunnel env (some sel) false =
        runAndLog env ["wg-quick", "down", active_tunnel] ++
          runAndLog env ["wg-quick", "up", sel]) := by
  rcases hr : env.run ["wg-quick", "down", active_tunnel] with ⟨o0, e0⟩ | ⟨o0, e0⟩
  · refine ⟨?_, ?_, ?_⟩
    · simp [MainWindow.toggle_tunnel, hfind, hne0, hne, hr, runAndLog]
    · intro o e hfail
      exact absurd hfail (by simp)
    · intro o e hsucc
      simp [MainWindow.toggle_tunnel, hfind, hne0, hne, hr, runAndLog]
  · refine ⟨?_, ?_, ?_⟩
    · simp [MainWindow.toggle_tunnel, hfind, hne0, hne, hr, runAndLog]
    · intro o e hfail
      obtain ⟨ho, he⟩ : o0 = o ∧ e0 = e := by
        injection hfail with h1 h2
        exact ⟨h1, h2⟩
      subst ho
      subst he
      constructor
      · simp [MainWindow.toggle_tunnel, hfind, hne0, hne, hr, runAndLog,
          CmdOutcome.out, CmdOutcome.err]
      · intro oc
        simp [MainWindow.toggle_tunnel, hfind, hne0, hne, hr, runAndLog, hne.symm]
    · intro o e hsucc
      exact absurd hsucc (by simp)

theorem toggle_single_active_enforced_witness :
    MainWindow.toggle_tunnel failDownEnv (some "wg1") false =
      [Event.run ["wg-quick", "down", "wg0"] (CmdOutcome.failure "" "boom"),
       Event.log ⟨["wg-quick", "down", "wg0"], "", "boom"⟩] :=
  ((toggle_single_active_enforced failDownEnv "wg1" "wg0"
    (by decide) (by decide) (by decide)).2.1 "" "boom" rfl).1

/-- C8: for a delete of the selected tunnel (first existing candidate
path found): a missing write permission prevents the removal; when the
tunnel is reported active and the preceding wg-quick down fails, the
deletion aborts with the filesystem unchanged; and deleting an inactive
writable tunnel produces exactly the removal, with no command
invocation and no log entry. -/
theorem remove_tunnel_safeguards (env : Env) (fsenv : FsEnv) (sel path : String)
    (hp : (configPaths sel).find? (fun p => isfile fsenv.files p) = some path) :
    (fsenv.fileWritable path = false →
      ∀ q, Event.remove q ∉ MainWindow.remove_tunnel env fsenv sel) ∧
    (∀ o e, getListenPort (Wireguard.read_config env.native sel) ≠ 0 →
      env.run ["wg-quick", "down", sel] = CmdOutcome.failure o e →
      MainWindow.remove_tunnel env fsenv sel =
        [Event.run ["wg-quick", "down", sel] (CmdOutcome.failure o e),
         Event.log ⟨["wg-quick", "down", sel], o, e⟩] ∧
      applyEvents fsenv.files (MainWindow.remove_tunnel env fsenv sel) = fsenv.files) ∧
    (getListenPort (Wireguard.read_config env.native sel) = 0 →
      fsenv.fileWritable path = true →
      MainWindow.remove_tunnel env fsenv sel = [Event.remove path]) := by
  refine ⟨?_, ?_, ?_⟩
  · intro hw q
    by_cases hact : getListenPort (Wireguard.read_config env.native sel) ≠ 0
    · rcases hr : env.run ["wg-quick", "down", sel] with ⟨o0, e0⟩ | ⟨o0, e0⟩
      · simp [MainWindow.remove_tunnel, hp, hact, hr, hw]
      · simp [MainWindow.remove_tunnel, hp, hact, hr, hw]
    · simp [MainWindow.remove_tunnel, hp, hact, hw]
  · intro o e hact hfail
    constructor
    · simp [MainWindow.remove_tunnel, hp, hact, hfail]
    · simp [MainWindow.remove_tunnel, hp, hact, hfail, applyEvents, applyEvent]
  · intro hact hw
    simp [MainWindow.remove_tunnel, hp, hact, hw]

/-- A filesystem view where wg0.conf exists but is not writable. -/
def roFs : FsEnv :=
  ⟨[("/etc/wireguard/wg0.conf", "cfg")],
   fun d => d = "/etc/wireguard", fun _ => true, fun _ => false⟩

theorem remove_tunnel_safeguards_witness :
    (∀ q, Event.remove q ∉ MainWindow.remove_tunnel quietEnv roFs "wg0") ∧
    MainWindow.remove_tunnel failDownEnv editFs "wg0" =
      [Event.run ["wg-quick", "down", "wg0"] (CmdOutcome.failure "" "boom"),
       Event.log ⟨["wg-quick", "down", "wg0"], "", "boom"⟩] ∧
    MainWindow.remove_tunnel quietEnv editFs "wg0" =
      [Event.remove "/etc/wireguard/wg0.conf"] := by
  refine ⟨?_, ?_, ?_⟩
  · exact (remove_tunnel_safeguards quietEnv roFs "wg0" "/etc/wireguard/wg0.conf"
      (by decide)).1 rfl
  · exact ((remove_tunnel_safeguards failDownEnv editFs "wg0" "/etc/wireguard/wg0.conf"
      (by decide)).2.1 "" "boom" (by decide) rfl).1
  · exact (remove_tunnel_safeguards quietEnv editFs "wg0" "/etc/wireguard/wg0.conf"
      (by decide)).2.2 (by decide) rfl

theorem wellLogged_runAndLog_nil (env : Env) (cmd : List String) :
    wellLogged (runAndLog env cmd) = true := by
  simp [runAndLog, wellLogged]

/-- An environment with one active tunnel wg0 whose commands succeed. -/
def quitEnv : Env := ⟨activeWg0Native, fun _ => CmdOutcome.success "" ""⟩

/-- C2 counterexample: quitting the application with wg0 active issues
a wg-quick down invocation, yet no append_log event occurs anywhere in
the quit trace — the quit-path invocation is not appended to the
activity log. -/
theorem quit_invocation_unlogged :
    MainWindow.quit_application quitEnv =
      [Event.run ["wg-quick", "down", "wg0"] (CmdOutcome.success "" "")] ∧
    (MainWindow.quit_application quitEnv).all (fun e => !e.isLog) = true := by
  decide

/-- C2 amended: every wg-quick invocation issued by the toggle, the
edit-dialog save (rename) and the delete paths is immediately appended
to the activity log with its literal argv and the captured stdout and
stderr, whatever its outcome; the quit path is the exception — its
invocations are never logged. -/
theorem activation_logging_except_quit :
    (∀ env sel a, wellLogged (MainWindow.toggle_tunnel env sel a) = true) ∧
    (∀ env fsenv tn cf nn ct,
      wellLogged (TunnelEditDialog.save_config env fsenv tn cf nn ct).1 = true) ∧
    (∀ env fsenv sel, wellLogged (MainWindow.remove_tunnel env fsenv sel) = true) ∧
    (∀ env, (MainWindow.quit_application env).all (fun e => !e.isLog) = true) := by
  refine ⟨?_, ?_, ?_, ?_⟩
  · intro env sel a
    rcases sel with _ | s
    · simp [MainWindow.toggle_tunnel, wellLogged]
    · rcases a with _ | _
      · simp only [MainWindow.toggle_tunnel, Bool.not_false, if_true]
        rcases hfind : (Wireguard.read_interfaces_name env.native).find?
            (fun i => getListenPort (Wireguard.read_config env.native i) != 0) with _ | t
        · exact wellLogged_runAndLog_nil env _
        · by_cases hg : (¬t = "" ∧ ¬t = s)
          · rcases hr : env.run ["wg-quick", "down", t] with ⟨o0, e0⟩ | ⟨o0, e0⟩
            · simp [hg.1, hg.2, hr, wellLogged_runAndLog, wellLogged_runAndLog_nil]
            · simp [hg.1, hg.2, hr, wellLogged_runAndLog, wellLogged_runAndLog_nil]
          · simp [hg, wellLogged_runAndLog_nil]
      · simp only [MainWindow.toggle_tunnel, Bool.not_true, if_false]
        exact wellLogged_runAndLog_nil env _
  · intro env fsenv tn cf nn ct
    rcases hv : TunnelEditDialog.validate_config fsenv tn nn with e | dir
    · simp [TunnelEditDialog.save_config, hv, wellLogged]
    · by_cases hne : nn ≠ tn
      · by_cases hact : getListenPort (Wireguard.read_config env.native tn) ≠ 0
        · rcases hr : env.run ["wg-quick", "down", tn] with ⟨o0, e0⟩ | ⟨o0, e0⟩
          · simp [TunnelEditDialog.save_config, hv, hne, hact, hr, wellLogged,
              CmdOutcome.out, CmdOutcome.err]
          · simp [TunnelEditDialog.save_config, hv, hne, hact, hr, wellLogged,
              CmdOutcome.out, CmdOutcome.err]
        · simp [TunnelEditDialog.save_config, hv, hne, hact, wellLogged]
      · simp [TunnelEditDialog.save_config, hv, hne, wellLogged]
  · intro env fsenv sel
    rcases hp : (configPaths sel).find? (fun p => isfile fsenv.files p) with _ | path
    · simp [MainWindow.remove_tunnel, hp, wellLogged]
    · by_cases hact : getListenPort (Wireguard.read_config env.native sel) ≠ 0
      · rcases hr : env.run ["wg-quick", "down", sel] with ⟨o0, e0⟩ | ⟨o0, e0⟩
        · by_cases hw : fsenv.fileWritable path = false
          · simp [MainWindow.remove_tunnel, hp, hact, hr, hw, wellLogged,
              CmdOutcome.out, CmdOutcome.err]
          · simp [MainWindow.remove_tunnel, hp, hact, hr, hw, wellLogged,
              CmdOutcome.out, CmdOutcome.err]
        · simp [MainWindow.remove_tunnel, hp, hact, hr, wellLogged,
            CmdOutcome.out, CmdOutcome.err]
      · by_cases hw : fsenv.fileWritable path = false
        · simp [MainWindow.remove_tunnel, hp, hact, hw, wellLogged]
        · simp [MainWindow.remove_tunnel, hp, hact, hw, wellLogged]
  · intro env
    rw [List.all_eq_true]
    intro e he
    simp only [MainWindow.quit_application, List.mem_filterMap] at he
    obtain ⟨i, _, hi⟩ := he
    by_cases hip : getListenPort (Wireguard.read_config env.native i) ≠ 0
    · simp only [if_pos hip, Option.some.injEq] at hi
      subst hi
      rfl
    · simp [if_neg hip] at hi
